import Mathlib

/-!
# Galaxy-Simulator: verification of the core generation / rotation / LOD code

Shallow embedding, over exact real arithmetic, of the algorithmic core of the
`Galaxy-Simulator` repository:

* `GalaxyGenerator.ts` — `generateSpiralArms`, `addCentralBulge`,
  `calculateAngularVelocity`;
* `GalaxyRenderer.ts` — the rotation-state initialisation inside
  `generateGalaxy` and the per-frame `updateStarPositions`;
* `OptimizedGalaxyViewer.svelte` (`RenderingOptimizer`) — `getLODLevel`,
  the frustum test (as three.js computes it from the projection matrix) and
  the per-star classification step of `optimizeStarRendering`.

JavaScript `number`s are modelled as real numbers; `Math.random()` results are
an abstract stream of draws in `[0,1)`, indexed per star and per call site
(each loop iteration of the source consumes its draws in order; giving every
star its own sub-stream is an injective renaming of the call sites of the
single global source and models the same nondeterminism).  For the one claim
where IEEE non-finite values are decisive (division by an `armCount` of zero),
a separate embedding over `Option ℝ` is used in which `none` stands for a
non-finite JavaScript number (`NaN` or `±Infinity`).
-/

namespace Galaxy

/-- The configuration object (`GalaxyConfig` in `src/lib/types/galaxy.ts`).
Colors in `starColors` are already parsed to r,g,b triples, as
`new THREE.Color(hex)` does in the source.  `brightness` is optional in the
source (the generator reads `config.brightness || 1.0`), hence `Option ℝ`
with `none` for `undefined`. -/
structure GalaxyConfig where
  starCount : ℕ
  armCount : ℤ
  galaxyRadius : ℝ
  rotationSpeed : ℝ
  coreSize : ℝ
  starColors : List (ℝ × ℝ × ℝ)
  particleSize : ℝ
  brightness : Option ℝ

/-- `GalaxyGenerator.ts`, `calculateAngularVelocity(radius, rotationSpeed)`:
```
const maxVelocity = rotationSpeed;
if (radius < 10) { return maxVelocity * (radius / 10); }
else if (radius < 30) { return maxVelocity; }
else { return maxVelocity * Math.pow(30 / radius, 0.3); }
```
`Math.pow` on a nonnegative base is real exponentiation (`Real.rpow`). -/
noncomputable def calculateAngularVelocity (radius rotationSpeed : ℝ) : ℝ :=
  if radius < 10 then rotationSpeed * (radius / 10)
  else if radius < 30 then rotationSpeed
  else rotationSpeed * (30 / radius) ^ (0.3 : ℝ)

/-- `THREE.Color().lerpColors(c1, c2, t)`: componentwise
`c1 + (c2 - c1) * t`. -/
def lerpColors (c₁ c₂ : ℝ × ℝ × ℝ) (t : ℝ) : ℝ × ℝ × ℝ :=
  (c₁.1 + (c₂.1 - c₁.1) * t,
   c₁.2.1 + (c₂.2.1 - c₁.2.1) * t,
   c₁.2.2 + (c₂.2.2 - c₁.2.2) * t)

/-- `THREE.Color.multiplyScalar(s)`: componentwise scaling. -/
def scaleColor (s : ℝ) (c : ℝ × ℝ × ℝ) : ℝ × ℝ × ℝ :=
  (s * c.1, s * c.2.1, s * c.2.2)

/-- `config.brightness || 1.0` — JavaScript `||` takes the fallback `1.0`
when `brightness` is `undefined` (`none` here) or the falsy number `0`. -/
noncomputable def brightnessValue (b : Option ℝ) : ℝ :=
  match b with
  | none => 1
  | some v => if v = 0 then 1 else v

/-- The flat output arrays of the generator functions
(`{ positions, colors, sizes }` in the source). -/
structure GenResult where
  positions : List ℝ
  colors : List ℝ
  sizes : List ℝ

/-! ## One spiral-arm star (loop body of `generateSpiralArms`, lines 18-93)

`u i j` is the result of the `j`-th `Math.random()` call made during loop
iteration `i`, in the order the source makes them: arm index, radius, angle
variation, radius variation, vertical variation, then one or two color draws,
then the size variation. -/

namespace Spiral

variable (cfg : GalaxyConfig) (u : ℕ → ℕ → ℝ) (tightness : ℝ) (i : ℕ)

/-- `const adjustedTightness = tightness * (1 + (armCount - 2) * 0.05);` -/
noncomputable def adjustedTightness : ℝ :=
  tightness * (1 + ((cfg.armCount : ℝ) - 2) * 0.05)

/-- `const armIndex = Math.floor(Math.random() * armCount);` -/
noncomputable def armIndex : ℤ := ⌊u i 0 * (cfg.armCount : ℝ)⌋

/-- `const armAngleOffset = (armIndex * 2 * Math.PI) / armCount;`
(In exact real arithmetic; the `armCount = 0` case, where JavaScript
produces `NaN`, is treated separately in the `JS` namespace below.) -/
noncomputable def armAngleOffset : ℝ :=
  ((armIndex cfg u i : ℝ) * 2 * Real.pi) / (cfg.armCount : ℝ)

/-- `const radius = Math.random() * config.galaxyRadius;` -/
noncomputable def radius : ℝ := u i 1 * cfg.galaxyRadius

/-- `const spiralAngle = armAngleOffset + (radius * adjustedTightness);` -/
noncomputable def spiralAngle : ℝ :=
  armAngleOffset cfg u i + radius cfg u i * adjustedTightness cfg tightness

/-- `const angleVariation = (Math.random() - 0.5) * 0.5 * (3 / armCount);` -/
noncomputable def angleVariation : ℝ :=
  (u i 2 - 0.5) * 0.5 * (3 / (cfg.armCount : ℝ))

/-- `const radiusVariation = (Math.random() - 0.5) * 10;` -/
noncomputable def radiusVariation : ℝ := (u i 3 - 0.5) * 10

/-- `const finalAngle = spiralAngle + angleVariation;` -/
noncomputable def finalAngle : ℝ :=
  spiralAngle cfg u tightness i + angleVariation cfg u i

/-- `const finalRadius = Math.max(0, radius + radiusVariation);` -/
noncomputable def finalRadius : ℝ :=
  max 0 (radius cfg u i + radiusVariation u i)

/-- `const x = Math.cos(finalAngle) * finalRadius;` -/
noncomputable def x : ℝ :=
  Real.cos (finalAngle cfg u tightness i) * finalRadius cfg u i

/-- `const z = Math.sin(finalAngle) * finalRadius;` -/
noncomputable def z : ℝ :=
  Real.sin (finalAngle cfg u tightness i) * finalRadius cfg u i

/-- `const y = (Math.random() - 0.5) * 5 * Math.exp(-finalRadius / 30);` -/
noncomputable def y : ℝ :=
  (u i 4 - 0.5) * 5 * Real.exp (-(finalRadius cfg u i) / 30)

/-- `const distanceRatio = finalRadius / config.galaxyRadius;` -/
noncomputable def distanceRatio : ℝ := finalRadius cfg u i / cfg.galaxyRadius

/-- The star's color before the brightness factor (lines 50-78).  The color
draws are random draws 5 (and 6 in the outer region, which first draws the
70% branch test and then the palette index or lerp factor).
`config.starColors[colorIndex]` with an in-range index is a list lookup; the
default `(1,1,1)` mirrors `new THREE.Color(undefined)`, which keeps THREE's
default white (reachable only for an empty `starColors`). -/
noncomputable def baseColor : ℝ × ℝ × ℝ :=
  if distanceRatio cfg u i < 0.3 then
    lerpColors (1, 1, 1) (1, 221/255, 170/255) (u i 5)
  else if distanceRatio cfg u i < 0.7 then
    cfg.starColors.getD (⌊u i 5 * (cfg.starColors.length : ℝ)⌋).toNat (1, 1, 1)
  else if u i 5 < 0.7 then
    scaleColor 0.85
      (cfg.starColors.getD (⌊u i 6 * (cfg.starColors.length : ℝ)⌋).toNat (1, 1, 1))
  else
    lerpColors (170/255, 221/255, 1) (102/255, 153/255, 204/255) (u i 6)

/-- The pushed color: base color times `config.brightness || 1.0`. -/
noncomputable def starColor : ℝ × ℝ × ℝ :=
  scaleColor (brightnessValue cfg.brightness) (baseColor cfg u i)

/-- `const sizeVariation = Math.random() * 2 + 0.5;` — this is the draw after
the color draws: draw 6 in the core/mid regions (one color draw), draw 7 in
the outer region (two color draws). -/
noncomputable def sizeVariation : ℝ :=
  (if distanceRatio cfg u i < 0.7 then u i 6 else u i 7) * 2 + 0.5

/-- `const distanceSize = ratio < 0.3 ? 1.5 : (ratio < 0.7 ? 1.2 : 1.0);` -/
noncomputable def distanceSize : ℝ :=
  if distanceRatio cfg u i < 0.3 then 1.5
  else if distanceRatio cfg u i < 0.7 then 1.2 else 1.0

/-- `const finalSize = baseSize * sizeVariation * distanceSize;` with
`baseSize = config.particleSize`. -/
noncomputable def finalSize : ℝ :=
  cfg.particleSize * sizeVariation cfg u i * distanceSize cfg u i

end Spiral

/-- The generator loop of `generateSpiralArms` after `n` iterations: each
iteration pushes `x, y, z` onto `positions`, `r, g, b` onto `colors` and the
size onto `sizes`. -/
noncomputable def generateSpiralArmsAux (cfg : GalaxyConfig) (u : ℕ → ℕ → ℝ)
    (tightness : ℝ) : ℕ → GenResult
  | 0 => ⟨[], [], []⟩
  | n + 1 =>
    let p := generateSpiralArmsAux cfg u tightness n
    ⟨p.positions ++ [Spiral.x cfg u tightness n, Spiral.y cfg u n,
        Spiral.z cfg u tightness n],
     p.colors ++ [(Spiral.starColor cfg u n).1, (Spiral.starColor cfg u n).2.1,
        (Spiral.starColor cfg u n).2.2],
     p.sizes ++ [Spiral.finalSize cfg u n]⟩

/-- `generateSpiralArms(config, tightness = 0.3)` (GalaxyGenerator.ts,
lines 7-96): runs the loop for `config.starCount` iterations. -/
noncomputable def generateSpiralArms (cfg : GalaxyConfig) (u : ℕ → ℕ → ℝ)
    (tightness : ℝ := 0.3) : GenResult :=
  generateSpiralArmsAux cfg u tightness cfg.starCount

/-! ## One central-bulge star (loop body of `addCentralBulge`, lines 109-137)

`v i j` is the `j`-th `Math.random()` draw of bulge-loop iteration `i`:
two radius draws, theta, phi, the color lerp factor, the size draw. -/

namespace Bulge

variable (cfg : GalaxyConfig) (v : ℕ → ℕ → ℝ) (i : ℕ)

/-- `const radius = Math.random() * Math.random() * config.coreSize;` -/
noncomputable def radius : ℝ := v i 0 * v i 1 * cfg.coreSize

/-- `const theta = Math.random() * 2 * Math.PI;` -/
noncomputable def theta : ℝ := v i 2 * 2 * Real.pi

/-- `const phi = Math.acos(2 * Math.random() - 1);` -/
noncomputable def phi : ℝ := Real.arccos (2 * v i 3 - 1)

/-- `const x = radius * Math.sin(phi) * Math.cos(theta);` -/
noncomputable def x : ℝ :=
  radius cfg v i * Real.sin (phi v i) * Real.cos (theta v i)

/-- `const y = radius * Math.cos(phi) * 0.3;` -/
noncomputable def y : ℝ := radius cfg v i * Real.cos (phi v i) * 0.3

/-- `const z = radius * Math.sin(phi) * Math.sin(theta);` -/
noncomputable def z : ℝ :=
  radius cfg v i * Real.sin (phi v i) * Real.sin (theta v i)

/-- Bulge color: lerp between `0xffaa66` and `0xff8844`, then the brightness
factor `config.brightness || 1.0`. -/
noncomputable def starColor : ℝ × ℝ × ℝ :=
  scaleColor (brightnessValue cfg.brightness)
    (lerpColors (1, 170/255, 102/255) (1, 136/255, 68/255) (v i 4))

/-- `const bulgeSize = config.particleSize * (1.5 + Math.random());` -/
noncomputable def bulgeSize : ℝ := cfg.particleSize * (1.5 + v i 5)

end Bulge

/-- The bulge loop after `n` iterations, appending to the result built so
far. -/
noncomputable def addCentralBulgeAux (cfg : GalaxyConfig) (v : ℕ → ℕ → ℝ) :
    ℕ → GenResult → GenResult
  | 0, p => p
  | n + 1, p =>
    let q := addCentralBulgeAux cfg v n p
    ⟨q.positions ++ [Bulge.x cfg v n, Bulge.y cfg v n, Bulge.z cfg v n],
     q.colors ++ [(Bulge.starColor cfg v n).1, (Bulge.starColor cfg v n).2.1,
        (Bulge.starColor cfg v n).2.2],
     q.sizes ++ [Bulge.bulgeSize cfg v n]⟩

/-- `addCentralBulge(config, positions, colors, sizes, bulgeStars)`
(GalaxyGenerator.ts, lines 101-140): pushes `bulgeStars` additional stars
onto the given arrays. -/
noncomputable def addCentralBulge (cfg : GalaxyConfig)
    (positions colors sizes : List ℝ) (bulgeStars : ℕ) (v : ℕ → ℕ → ℝ) :
    GenResult :=
  addCentralBulgeAux cfg v bulgeStars ⟨positions, colors, sizes⟩

/-! ## Rotation state of the orchestrator (`GalaxyRenderer.ts`)

`generateGalaxy` (lines 122-140) derives per-star rotation data from the
generated flat position array:
```
const x = this.positions[i * 3];
const z = this.positions[i * 3 + 1];
const radius = Math.sqrt(x * x + z * z);
this.rotationRadii[i] = radius;
this.angularVelocities[i] = calculateAngularVelocity(radius, rotationSpeed);
```
Note that the element read as `z` is `positions[i * 3 + 1]`. -/

/-- The `rotationRadii` array computed by `generateGalaxy`. -/
noncomputable def rotationRadii (positions : List ℝ) : List ℝ :=
  (List.range (positions.length / 3)).map fun i =>
    Real.sqrt (positions.getD (i * 3) 0 * positions.getD (i * 3) 0 +
      positions.getD (i * 3 + 1) 0 * positions.getD (i * 3 + 1) 0)

/-- The `angularVelocities` array computed by `generateGalaxy` (applied to the
entries of `rotationRadii`, in the same loop). -/
noncomputable def angularVelocities (positions : List ℝ) (rotationSpeed : ℝ) :
    List ℝ :=
  (rotationRadii positions).map fun r => calculateAngularVelocity r rotationSpeed

/-- The mutable star state of `GalaxyRenderer`: the flat `positions` array and
the two derived arrays (colors and sizes play no role in rotation). -/
structure RotationState where
  positions : List ℝ
  rotationRadii : List ℝ
  angularVelocities : List ℝ

open Classical in
/-- `updateStarPositions(elapsedTime)` (GalaxyRenderer.ts, lines 184-210):
for every star `i`, unless `rotationRadii[i] < 0.1`, set
```
const angle = elapsedTime * angularVelocity;
const currentAngle = Math.atan2(z, x);      // z = positions[i*3+2]
const newAngle = currentAngle + angle;
positions[i*3]   = Math.cos(newAngle) * radius;
positions[i*3+2] = Math.sin(newAngle) * radius;
```
`Math.atan2(z, x)` is the argument of the complex number `x + z·i`.  The
source mutates the array in place, but each iteration reads only the entries
of its own star before writing them, so the pointwise functional update below
computes the same array. -/
noncomputable def updateStarPositions (st : RotationState) (elapsedTime : ℝ) :
    RotationState :=
  { st with
    positions := (List.range st.positions.length).map fun j =>
      let i := j / 3
      let radius := st.rotationRadii.getD i 0
      if j % 3 = 1 then st.positions.getD j 0
      else if radius < 0.1 then st.positions.getD j 0
      else
        let angularVelocity := st.angularVelocities.getD i 0
        let angle := elapsedTime * angularVelocity
        let x := st.positions.getD (i * 3) 0
        let z := st.positions.getD (i * 3 + 2) 0
        let newAngle := Complex.arg ⟨x, z⟩ + angle
        if j % 3 = 0 then Real.cos newAngle * radius
        else Real.sin newAngle * radius }

/-- A run of the animation loop: `animate()` calls
`updateStarPositions(clock.getElapsedTime())` once per frame, so a schedule
of frames is the list of elapsed-time stamps passed in order. -/
noncomputable def runAnimationTicks (st : RotationState) (times : List ℝ) :
    RotationState :=
  times.foldl updateStarPositions st

/-- Modelled from the spec (the absolute-time reference of §4.2, strategy (a),
which `src/` does not contain as code):
`angle(t) = initialAngle + angularVelocity · elapsedTimeSinceStart`. -/
noncomputable def specAbsoluteAngle (initialAngle angularVelocity elapsed : ℝ) : ℝ :=
  initialAngle + angularVelocity * elapsed

/-- Modelled from the spec: the x coordinate recomputed from the absolute-time
angle and the stored radius. -/
noncomputable def specAbsoluteX (initialAngle angularVelocity radius elapsed : ℝ) : ℝ :=
  Real.cos (specAbsoluteAngle initialAngle angularVelocity elapsed) * radius

/-- Modelled from the spec: the z coordinate recomputed from the absolute-time
angle and the stored radius. -/
noncomputable def specAbsoluteZ (initialAngle angularVelocity radius elapsed : ℝ) : ℝ :=
  Real.sin (specAbsoluteAngle initialAngle angularVelocity elapsed) * radius

/-! ## Rendering optimizer (`OptimizedGalaxyViewer.svelte`, class
`RenderingOptimizer`) -/

/-- `this.lodDistances = [50, 100, 200, 400];` -/
def lodDistances : List ℝ := [50, 100, 200, 400]

/-- The loop of `getLODLevel(distance)`: first index whose threshold is
strictly above the distance, else the number of thresholds. -/
noncomputable def getLODLevelAux (distance : ℝ) : List ℝ → ℕ
  | [] => 0
  | d :: rest => if distance < d then 0 else getLODLevelAux distance rest + 1

/-- `getLODLevel(distance)` (lines 419-426). -/
noncomputable def getLODLevel (distance : ℝ) : ℕ :=
  getLODLevelAux distance lodDistances

/-- `THREE.Vector3.distanceTo`: Euclidean distance. -/
noncomputable def distanceTo (p q : ℝ × ℝ × ℝ) : ℝ :=
  Real.sqrt ((p.1 - q.1) ^ 2 + (p.2.1 - q.2.1) ^ 2 + (p.2.2 - q.2.2) ^ 2)

/-- three.js `Matrix4.makePerspective(left, right, top, bottom, near, far)`
(WebGL depth convention), as a row-indexed matrix; three.js stores it
column-major, element `te[4*col+row]` being row `row`, column `col`. -/
noncomputable def makePerspective (l r t b n f : ℝ) :
    Matrix (Fin 4) (Fin 4) ℝ :=
  !![2*n/(r-l), 0, (r+l)/(r-l), 0;
     0, 2*n/(t-b), (t+b)/(t-b), 0;
     0, 0, -(f+n)/(f-n), -2*f*n/(f-n);
     0, 0, -1, 0]

/-- `THREE.PerspectiveCamera.updateProjectionMatrix()` with zoom 1 and no
view offset: `top = near·tan(DEG2RAD·0.5·fov)`, `height = 2·top`,
`width = aspect·height`, `left = −0.5·width`, then `makePerspective`. -/
noncomputable def perspectiveProjection (fov aspect near far : ℝ) :
    Matrix (Fin 4) (Fin 4) ℝ :=
  let top := near * Real.tan (Real.pi / 180 * (0.5 * fov))
  let height := 2 * top
  let width := aspect * height
  let left := -0.5 * width
  makePerspective left (left + width) top (top - height) near far

/-- `THREE.Plane.setComponents(a,b,c,d).normalize().distanceToPoint(p)`:
`normalize` divides all four components by the length of the normal, and the
distance is then the normalized normal dotted with `p` plus the normalized
constant. -/
noncomputable def planeDistance (a b c d : ℝ) (p : ℝ × ℝ × ℝ) : ℝ :=
  (a * p.1 + b * p.2.1 + c * p.2.2 + d) / Real.sqrt (a ^ 2 + b ^ 2 + c ^ 2)

/-- `Frustum.setFromProjectionMatrix(m)` followed by `containsPoint(p)`:
the six planes are built from row 3 of `m` minus/plus rows 0, 1, 2 (in
three.js element order: right, left, bottom, top, far, near), and the point
is contained when every plane distance is `≥ 0`.  `m` is
`projectionMatrix * matrixWorldInverse`, as `updateFrustum` computes it. -/
def frustumContainsPoint (m : Matrix (Fin 4) (Fin 4) ℝ) (p : ℝ × ℝ × ℝ) :
    Prop :=
  planeDistance (m 3 0 - m 0 0) (m 3 1 - m 0 1) (m 3 2 - m 0 2) (m 3 3 - m 0 3) p ≥ 0 ∧
  planeDistance (m 3 0 + m 0 0) (m 3 1 + m 0 1) (m 3 2 + m 0 2) (m 3 3 + m 0 3) p ≥ 0 ∧
  planeDistance (m 3 0 + m 1 0) (m 3 1 + m 1 1) (m 3 2 + m 1 2) (m 3 3 + m 1 3) p ≥ 0 ∧
  planeDistance (m 3 0 - m 1 0) (m 3 1 - m 1 1) (m 3 2 - m 1 2) (m 3 3 - m 1 3) p ≥ 0 ∧
  planeDistance (m 3 0 - m 2 0) (m 3 1 - m 2 1) (m 3 2 - m 2 2) (m 3 3 - m 2 3) p ≥ 0 ∧
  planeDistance (m 3 0 + m 2 0) (m 3 1 + m 2 1) (m 3 2 + m 2 2) (m 3 3 + m 2 3) p ≥ 0

open Classical in
/-- The per-star body of `optimizeStarRendering` (lines 495-539): compute the
distance to the camera, skip the star (`none`) if it is beyond
`lodDistances[lodDistances.length - 1] * 2` or outside the frustum, otherwise
classify it into bucket `getLODLevel(distance)`. -/
noncomputable def classifyStar (projection viewInverse : Matrix (Fin 4) (Fin 4) ℝ)
    (cameraPosition p : ℝ × ℝ × ℝ) : Option ℕ :=
  let distance := distanceTo p cameraPosition
  if distance > lodDistances.getLastD 0 * 2 then none
  else if ¬ frustumContainsPoint (projection * viewInverse) p then none
  else some (getLODLevel distance)

/-! ## NaN-tracking model of the spiral-arm angle computation

JavaScript float semantics for the one place where they are decisive: with
`armCount = 0` the source divides by zero.  `none` models a non-finite number
(`NaN` or `±Infinity`), `some v` the finite value `v`.  Sum, product, cosine
and sine of a non-finite operand are non-finite in IEEE arithmetic, and a
division by zero is non-finite (`0/0 = NaN`, otherwise `±Infinity`); the
divisors on the modelled path are always finite. -/

namespace JS

/-- IEEE addition: finite on finite operands, non-finite otherwise. -/
def jadd : Option ℝ → Option ℝ → Option ℝ
  | some a, some b => some (a + b)
  | _, _ => none

/-- IEEE multiplication: a non-finite factor makes the result non-finite
(`±Infinity` or `NaN`). -/
def jmul : Option ℝ → Option ℝ → Option ℝ
  | some a, some b => some (a * b)
  | _, _ => none

/-- IEEE division as used here (finite dividends and divisors): zero divisor
gives a non-finite result. -/
noncomputable def jdiv : Option ℝ → Option ℝ → Option ℝ
  | some a, some b => if b = 0 then none else some (a / b)
  | _, _ => none

/-- `Math.cos`: `NaN` on non-finite input. -/
noncomputable def jcos (a : Option ℝ) : Option ℝ := a.map Real.cos

/-- `Math.sin`: `NaN` on non-finite input. -/
noncomputable def jsin (a : Option ℝ) : Option ℝ := a.map Real.sin

/-- `(armIndex * 2 * Math.PI) / armCount` — `armIndex` itself is always
finite (`Math.floor` of a finite product). -/
noncomputable def armAngleOffset (cfg : GalaxyConfig) (u : ℕ → ℕ → ℝ) (i : ℕ) :
    Option ℝ :=
  jdiv (some ((Spiral.armIndex cfg u i : ℝ) * 2 * Real.pi))
    (some (cfg.armCount : ℝ))

/-- `armAngleOffset + (radius * adjustedTightness)` — radius and tightness
are finite. -/
noncomputable def spiralAngle (cfg : GalaxyConfig) (u : ℕ → ℕ → ℝ)
    (tightness : ℝ) (i : ℕ) : Option ℝ :=
  jadd (armAngleOffset cfg u i)
    (some (Spiral.radius cfg u i * Spiral.adjustedTightness cfg tightness))

/-- `(Math.random() - 0.5) * 0.5 * (3 / armCount)`. -/
noncomputable def angleVariation (cfg : GalaxyConfig) (u : ℕ → ℕ → ℝ) (i : ℕ) :
    Option ℝ :=
  jmul (some ((u i 2 - 0.5) * 0.5)) (jdiv (some 3) (some (cfg.armCount : ℝ)))

/-- `finalAngle = spiralAngle + angleVariation`. -/
noncomputable def finalAngle (cfg : GalaxyConfig) (u : ℕ → ℕ → ℝ)
    (tightness : ℝ) (i : ℕ) : Option ℝ :=
  jadd (spiralAngle cfg u tightness i) (angleVariation cfg u i)

/-- `x = Math.cos(finalAngle) * finalRadius` — `finalRadius` is finite for
any `armCount` (it involves no division). -/
noncomputable def x (cfg : GalaxyConfig) (u : ℕ → ℕ → ℝ) (tightness : ℝ)
    (i : ℕ) : Option ℝ :=
  jmul (jcos (finalAngle cfg u tightness i)) (some (Spiral.finalRadius cfg u i))

/-- `z = Math.sin(finalAngle) * finalRadius`. -/
noncomputable def z (cfg : GalaxyConfig) (u : ℕ → ℕ → ℝ) (tightness : ℝ)
    (i : ℕ) : Option ℝ :=
  jmul (jsin (finalAngle cfg u tightness i)) (some (Spiral.finalRadius cfg u i))

/-- `y = (Math.random() - 0.5) * 5 * Math.exp(-finalRadius / 30)` — every
operand is finite for any `armCount`, so `y` is the finite value that the
real-valued embedding computes. -/
noncomputable def y (cfg : GalaxyConfig) (u : ℕ → ℕ → ℝ) (i : ℕ) : Option ℝ :=
  some (Spiral.y cfg u i)

end JS

/-! ## Concrete instances used by counterexamples -/

/-- A configuration with `armCount = 0` (all other fields are the repository
defaults). -/
def zeroArmConfig : GalaxyConfig :=
  { starCount := 1, armCount := 0, galaxyRadius := 100, rotationSpeed := 0.1,
    coreSize := 10, starColors := [(1, 1, 1)], particleSize := 0.1,
    brightness := none }

/-- A small galaxy: `galaxyRadius = 10`, one star, one arm. -/
def smallRadiusConfig : GalaxyConfig :=
  { starCount := 1, armCount := 1, galaxyRadius := 10, rotationSpeed := 0.1,
    coreSize := 10, starColors := [(1, 1, 1)], particleSize := 0.1,
    brightness := none }

/-- The repository's default configuration (the test configuration of
`GalaxyGenerator.test.ts`, colors parsed from `#ffffff`, `#ffddaa`,
`#aaddff`). -/
noncomputable def defaultConfig : GalaxyConfig :=
  { starCount := 1000, armCount := 4, galaxyRadius := 100, rotationSpeed := 0.1,
    coreSize := 10,
    starColors := [(1, 1, 1), (1, 221/255, 170/255), (170/255, 221/255, 1)],
    particleSize := 0.1, brightness := none }

/-- The constant half stream (every `Math.random()` call returns 0.5). -/
noncomputable def halfStream : ℕ → ℕ → ℝ := fun _ _ => 1/2

/-- A draw stream whose radius draw is 0.9 and whose radius-variation draw is
0.99 (both in `[0,1)`), all other draws 0.5. -/
noncomputable def bigJitterStream : ℕ → ℕ → ℝ := fun _ j =>
  if j = 1 then 0.9 else if j = 3 then 0.99 else 1/2

/-! ## Length bookkeeping -/

theorem generateSpiralArmsAux_lengths (cfg : GalaxyConfig) (u : ℕ → ℕ → ℝ)
    (tightness : ℝ) (n : ℕ) :
    (generateSpiralArmsAux cfg u tightness n).positions.length = 3 * n ∧
    (generateSpiralArmsAux cfg u tightness n).colors.length = 3 * n ∧
    (generateSpiralArmsAux cfg u tightness n).sizes.length = n := by
  induction n with
  | zero => simp [generateSpiralArmsAux]
  | succ k ih =>
    simp only [generateSpiralArmsAux, List.length_append, List.length_cons,
      List.length_nil]
    omega

theorem addCentralBulgeAux_lengths (cfg : GalaxyConfig) (v : ℕ → ℕ → ℝ)
    (n : ℕ) (p : GenResult) :
    (addCentralBulgeAux cfg v n p).positions.length = p.positions.length + 3 * n ∧
    (addCentralBulgeAux cfg v n p).colors.length = p.colors.length + 3 * n ∧
    (addCentralBulgeAux cfg v n p).sizes.length = p.sizes.length + n := by
  induction n with
  | zero => simp [addCentralBulgeAux]
  | succ k ih =>
    simp only [addCentralBulgeAux, List.length_append, List.length_cons,
      List.length_nil]
    omega

/-! ## Structure of the generated arrays, planar radii -/

theorem generateSpiralArmsAux_eq_append (cfg : GalaxyConfig) (u : ℕ → ℕ → ℝ)
    (t : ℝ) (n : ℕ) :
    generateSpiralArmsAux cfg u t n =
      ⟨(List.range n).flatMap fun i =>
          [Spiral.x cfg u t i, Spiral.y cfg u i, Spiral.z cfg u t i],
       (List.range n).flatMap fun i =>
          [(Spiral.starColor cfg u i).1, (Spiral.starColor cfg u i).2.1,
           (Spiral.starColor cfg u i).2.2],
       (List.range n).map (Spiral.finalSize cfg u)⟩ := by
  induction n with
  | zero => rfl
  | succ k ih => simp [generateSpiralArmsAux, ih, List.range_succ]

theorem addCentralBulgeAux_eq_append (cfg : GalaxyConfig) (v : ℕ → ℕ → ℝ)
    (n : ℕ) (p : GenResult) :
    addCentralBulgeAux cfg v n p =
      ⟨p.positions ++ ((List.range n).flatMap fun i =>
          [Bulge.x cfg v i, Bulge.y cfg v i, Bulge.z cfg v i]),
       p.colors ++ ((List.range n).flatMap fun i =>
          [(Bulge.starColor cfg v i).1, (Bulge.starColor cfg v i).2.1,
           (Bulge.starColor cfg v i).2.2]),
       p.sizes ++ (List.range n).map (Bulge.bulgeSize cfg v)⟩ := by
  induction n with
  | zero => simp [addCentralBulgeAux]
  | succ k ih => simp [addCentralBulgeAux, ih, List.range_succ]

theorem sqrt_cos_mul_sq_add_sin_mul_sq (a r : ℝ) (hr : 0 ≤ r) :
    Real.sqrt ((Real.cos a * r) ^ 2 + (Real.sin a * r) ^ 2) = r := by
  have h : (Real.cos a * r) ^ 2 + (Real.sin a * r) ^ 2 = r ^ 2 := by
    have := Real.sin_sq_add_cos_sq a
    nlinarith
  rw [h, Real.sqrt_sq hr]

/-- A spiral-arm star's distance from the vertical axis is exactly its
`finalRadius`. -/
theorem spiral_planar_radius (cfg : GalaxyConfig) (u : ℕ → ℕ → ℝ) (t : ℝ)
    (i : ℕ) :
    Real.sqrt (Spiral.x cfg u t i ^ 2 + Spiral.z cfg u t i ^ 2) =
      Spiral.finalRadius cfg u i := by
  unfold Spiral.x Spiral.z
  exact sqrt_cos_mul_sq_add_sin_mul_sq _ _ (le_max_left _ _)

end Galaxy

namespace Galaxy

/-- C9: `generateSpiralArms` returns `3·starCount` position entries,
`3·starCount` color entries and `starCount` sizes, and `addCentralBulge`
preserves the parallel-array invariant
`len(positions)/3 = len(colors)/3 = len(sizes)`. -/
theorem generator_parallel_array_lengths :
    (∀ (cfg : GalaxyConfig) (u : ℕ → ℕ → ℝ) (t : ℝ),
      (generateSpiralArms cfg u t).positions.length = 3 * cfg.starCount ∧
      (generateSpiralArms cfg u t).colors.length = 3 * cfg.starCount ∧
      (generateSpiralArms cfg u t).sizes.length = cfg.starCount) ∧
    (∀ (cfg : GalaxyConfig) (p c s : List ℝ) (N : ℕ) (v : ℕ → ℕ → ℝ),
      p.length = 3 * s.length → c.length = 3 * s.length →
      (addCentralBulge cfg p c s N v).positions.length =
        3 * (addCentralBulge cfg p c s N v).sizes.length ∧
      (addCentralBulge cfg p c s N v).colors.length =
        3 * (addCentralBulge cfg p c s N v).sizes.length) := by
  constructor
  · intro cfg u t
    exact generateSpiralArmsAux_lengths cfg u t cfg.starCount
  · intro cfg p c s N v hp hc
    obtain ⟨h1, h2, h3⟩ := addCentralBulgeAux_lengths cfg v N ⟨p, c, s⟩
    unfold addCentralBulge
    constructor <;> simp only [h1, h2, h3] <;> omega

/-- Witness for C9: the default one-star configuration and a bulge of 5
stars added to empty arrays. -/
theorem generator_parallel_array_lengths_witness :
    (generateSpiralArms smallRadiusConfig halfStream).sizes.length =
      smallRadiusConfig.starCount ∧
    (addCentralBulge smallRadiusConfig [] [] [] 5 halfStream).positions.length =
      3 * (addCentralBulge smallRadiusConfig [] [] [] 5 halfStream).sizes.length :=
  ⟨(generator_parallel_array_lengths.1 smallRadiusConfig halfStream 0.3).2.2,
   (generator_parallel_array_lengths.2 smallRadiusConfig [] [] [] 5 halfStream
      (by simp) (by simp)).1⟩

/-- C8: `addCentralBulge` appends exactly `N` stars — the outputs are the
inputs followed by the `N` new blocks, so lengths grow by `3N`, `3N`, `N` and
every pre-existing entry is untouched; each appended star sits within
`coreSize · 1.2` of the origin in 3D distance and has size strictly above
`particleSize`; `N = 0` is a no-op. -/
theorem addCentralBulge_spec (cfg : GalaxyConfig) (p c s : List ℝ) (N : ℕ)
    (v : ℕ → ℕ → ℝ) (hcore : 0 ≤ cfg.coreSize) (hps : 0 < cfg.particleSize)
    (hv : ∀ i j, 0 ≤ v i j ∧ v i j < 1) :
    (addCentralBulge cfg p c s N v).positions =
      p ++ ((List.range N).flatMap fun i =>
        [Bulge.x cfg v i, Bulge.y cfg v i, Bulge.z cfg v i]) ∧
    (addCentralBulge cfg p c s N v).colors =
      c ++ ((List.range N).flatMap fun i =>
        [(Bulge.starColor cfg v i).1, (Bulge.starColor cfg v i).2.1,
         (Bulge.starColor cfg v i).2.2]) ∧
    (addCentralBulge cfg p c s N v).sizes =
      s ++ (List.range N).map (Bulge.bulgeSize cfg v) ∧
    (addCentralBulge cfg p c s N v).positions.length = p.length + 3 * N ∧
    (addCentralBulge cfg p c s N v).colors.length = c.length + 3 * N ∧
    (addCentralBulge cfg p c s N v).sizes.length = s.length + N ∧
    (∀ i, i < N →
      Real.sqrt (Bulge.x cfg v i ^ 2 + Bulge.y cfg v i ^ 2 + Bulge.z cfg v i ^ 2)
        ≤ cfg.coreSize * 1.2) ∧
    (∀ i, i < N → cfg.particleSize < Bulge.bulgeSize cfg v i) ∧
    addCentralBulge cfg p c s 0 v = ⟨p, c, s⟩ := by
  obtain ⟨h1, h2, h3⟩ := addCentralBulgeAux_lengths cfg v N ⟨p, c, s⟩
  have heq := addCentralBulgeAux_eq_append cfg v N ⟨p, c, s⟩
  refine ⟨congrArg GenResult.positions heq, congrArg GenResult.colors heq,
    congrArg GenResult.sizes heq, h1, h2, h3, ?_, ?_, rfl⟩
  · intro i _
    have hr0 : 0 ≤ Bulge.radius cfg v i := by
      unfold Bulge.radius
      exact mul_nonneg (mul_nonneg (hv i 0).1 (hv i 1).1) hcore
    have hr1 : Bulge.radius cfg v i ≤ cfg.coreSize := by
      unfold Bulge.radius
      calc v i 0 * v i 1 * cfg.coreSize ≤ 1 * cfg.coreSize := by
            apply mul_le_mul_of_nonneg_right _ hcore
            exact mul_le_one₀ (le_of_lt (hv i 0).2) (hv i 1).1 (le_of_lt (hv i 1).2)
        _ = cfg.coreSize := one_mul _
    have hsum : Bulge.x cfg v i ^ 2 + Bulge.y cfg v i ^ 2 + Bulge.z cfg v i ^ 2
        ≤ Bulge.radius cfg v i ^ 2 := by
      unfold Bulge.x Bulge.y Bulge.z
      have h1 := Real.sin_sq_add_cos_sq (Bulge.theta v i)
      have h2 := Real.sin_sq_add_cos_sq (Bulge.phi v i)
      nlinarith [sq_nonneg (Bulge.radius cfg v i * Real.sin (Bulge.phi v i)),
        sq_nonneg (Bulge.radius cfg v i * Real.cos (Bulge.phi v i))]
    calc Real.sqrt (Bulge.x cfg v i ^ 2 + Bulge.y cfg v i ^ 2 + Bulge.z cfg v i ^ 2)
        ≤ Real.sqrt (Bulge.radius cfg v i ^ 2) := Real.sqrt_le_sqrt hsum
      _ = Bulge.radius cfg v i := Real.sqrt_sq hr0
      _ ≤ cfg.coreSize * 1.2 := by nlinarith
  · intro i _
    unfold Bulge.bulgeSize
    nlinarith [(hv i 5).1]

/-- Witness for C8: one bulge star with the constant-half stream, appended to
empty arrays. -/
theorem addCentralBulge_spec_witness :
    Real.sqrt (Bulge.x smallRadiusConfig halfStream 0 ^ 2 +
        Bulge.y smallRadiusConfig halfStream 0 ^ 2 +
        Bulge.z smallRadiusConfig halfStream 0 ^ 2)
      ≤ smallRadiusConfig.coreSize * 1.2 ∧
    smallRadiusConfig.particleSize < Bulge.bulgeSize smallRadiusConfig halfStream 0 :=
  ⟨(addCentralBulge_spec smallRadiusConfig [] [] [] 1 halfStream
      (by norm_num [smallRadiusConfig]) (by norm_num [smallRadiusConfig])
      (fun i j => by norm_num [halfStream])).2.2.2.2.2.2.1 0 (by norm_num),
   (addCentralBulge_spec smallRadiusConfig [] [] [] 1 halfStream
      (by norm_num [smallRadiusConfig]) (by norm_num [smallRadiusConfig])
      (fun i j => by norm_num [halfStream])).2.2.2.2.2.2.2.1 0 (by norm_num)⟩

/-- C7 amended: with draws in `[0,1)` the planar distance of every generated
star is below `galaxyRadius + 5` (base radius below `galaxyRadius`, jitter
below `5`, clamped at `0`), hence at most `galaxyRadius · 1.2` whenever
`galaxyRadius ≥ 25`; for smaller positive radii the `1.2` factor can be
exceeded. -/
theorem spiralArms_distance_bound (cfg : GalaxyConfig) (u : ℕ → ℕ → ℝ) (t : ℝ)
    (hR : 25 ≤ cfg.galaxyRadius) (hu : ∀ i j, 0 ≤ u i j ∧ u i j < 1) :
    (generateSpiralArms cfg u t).positions =
      ((List.range cfg.starCount).flatMap fun i =>
        [Spiral.x cfg u t i, Spiral.y cfg u i, Spiral.z cfg u t i]) ∧
    (∀ i, Real.sqrt (Spiral.x cfg u t i ^ 2 + Spiral.z cfg u t i ^ 2) <
      cfg.galaxyRadius + 5) ∧
    (∀ i, Real.sqrt (Spiral.x cfg u t i ^ 2 + Spiral.z cfg u t i ^ 2) ≤
      cfg.galaxyRadius * 1.2) := by
  have hfr : ∀ i, Spiral.finalRadius cfg u i < cfg.galaxyRadius + 5 := by
    intro i
    unfold Spiral.finalRadius Spiral.radius Spiral.radiusVariation
    apply max_lt (by linarith)
    have hrad : u i 1 * cfg.galaxyRadius < cfg.galaxyRadius := by
      nlinarith [(hu i 1).2, (hu i 1).1]
    have hvar : (u i 3 - 0.5) * 10 < 5 := by linarith [(hu i 3).2]
    linarith
  refine ⟨congrArg GenResult.positions (generateSpiralArmsAux_eq_append cfg u t _),
    ?_, ?_⟩
  · intro i
    rw [spiral_planar_radius]
    exact hfr i
  · intro i
    rw [spiral_planar_radius]
    have := hfr i
    linarith

/-- Witness for C7 (amended) at the repository default configuration
(`galaxyRadius = 100`). -/
theorem spiralArms_distance_bound_witness :
    Real.sqrt (Spiral.x defaultConfig halfStream 0.3 0 ^ 2 +
        Spiral.z defaultConfig halfStream 0.3 0 ^ 2) ≤
      defaultConfig.galaxyRadius * 1.2 :=
  (spiralArms_distance_bound defaultConfig halfStream 0.3
    (by norm_num [defaultConfig]) (fun i j => by norm_num [halfStream])).2.2 0

/-- C7 counterexample: with `galaxyRadius = 10` (a valid positive radius) and
in-range draws, the single generated star lands at planar distance `13.9`,
above `galaxyRadius · 1.2 = 12`. -/
theorem spiralArms_distance_bound_counterexample :
    0 < smallRadiusConfig.galaxyRadius ∧
    (∀ i j, 0 ≤ bigJitterStream i j ∧ bigJitterStream i j < 1) ∧
    (generateSpiralArms smallRadiusConfig bigJitterStream).positions =
      [Spiral.x smallRadiusConfig bigJitterStream 0.3 0,
       Spiral.y smallRadiusConfig bigJitterStream 0,
       Spiral.z smallRadiusConfig bigJitterStream 0.3 0] ∧
    Real.sqrt (Spiral.x smallRadiusConfig bigJitterStream 0.3 0 ^ 2 +
      Spiral.z smallRadiusConfig bigJitterStream 0.3 0 ^ 2) = 13.9 ∧
    smallRadiusConfig.galaxyRadius * 1.2 < 13.9 := by
  refine ⟨by norm_num [smallRadiusConfig],
    fun i j => by unfold bigJitterStream; split_ifs <;> norm_num, ?_, ?_,
    by norm_num [smallRadiusConfig]⟩
  · rfl
  · rw [spiral_planar_radius]
    unfold Spiral.finalRadius Spiral.radius Spiral.radiusVariation
      bigJitterStream smallRadiusConfig
    norm_num

/-! ## Brightness handling -/

theorem spiral_starColor_brightness (cfg : GalaxyConfig) (u : ℕ → ℕ → ℝ)
    (i : ℕ) (β : Option ℝ) :
    Spiral.starColor { cfg with brightness := β } u i =
      scaleColor (brightnessValue β) (Spiral.baseColor cfg u i) := rfl

theorem bulge_starColor_brightness (cfg : GalaxyConfig) (v : ℕ → ℕ → ℝ)
    (i : ℕ) (β : Option ℝ) :
    Bulge.starColor { cfg with brightness := β } v i =
      scaleColor (brightnessValue β)
        (lerpColors (1, 170/255, 102/255) (1, 136/255, 68/255) (v i 4)) := rfl

theorem spiral_x_brightness (cfg : GalaxyConfig) (u : ℕ → ℕ → ℝ) (t : ℝ)
    (i : ℕ) (β : Option ℝ) :
    Spiral.x { cfg with brightness := β } u t i = Spiral.x cfg u t i := rfl

theorem spiral_y_brightness (cfg : GalaxyConfig) (u : ℕ → ℕ → ℝ) (i : ℕ)
    (β : Option ℝ) :
    Spiral.y { cfg with brightness := β } u i = Spiral.y cfg u i := rfl

theorem spiral_z_brightness (cfg : GalaxyConfig) (u : ℕ → ℕ → ℝ) (t : ℝ)
    (i : ℕ) (β : Option ℝ) :
    Spiral.z { cfg with brightness := β } u t i = Spiral.z cfg u t i := rfl

theorem spiral_finalSize_brightness (cfg : GalaxyConfig) (u : ℕ → ℕ → ℝ)
    (i : ℕ) (β : Option ℝ) :
    Spiral.finalSize { cfg with brightness := β } u i =
      Spiral.finalSize cfg u i := rfl

theorem bulge_x_brightness (cfg : GalaxyConfig) (v : ℕ → ℕ → ℝ) (i : ℕ)
    (β : Option ℝ) :
    Bulge.x { cfg with brightness := β } v i = Bulge.x cfg v i := rfl

theorem bulge_y_brightness (cfg : GalaxyConfig) (v : ℕ → ℕ → ℝ) (i : ℕ)
    (β : Option ℝ) :
    Bulge.y { cfg with brightness := β } v i = Bulge.y cfg v i := rfl

theorem bulge_z_brightness (cfg : GalaxyConfig) (v : ℕ → ℕ → ℝ) (i : ℕ)
    (β : Option ℝ) :
    Bulge.z { cfg with brightness := β } v i = Bulge.z cfg v i := rfl

theorem bulge_size_brightness (cfg : GalaxyConfig) (v : ℕ → ℕ → ℝ) (i : ℕ)
    (β : Option ℝ) :
    Bulge.bulgeSize { cfg with brightness := β } v i =
      Bulge.bulgeSize cfg v i := rfl

theorem generateSpiralArmsAux_brightness (cfg : GalaxyConfig) (u : ℕ → ℕ → ℝ)
    (t : ℝ) (β₁ β₂ : Option ℝ) (h : brightnessValue β₁ = brightnessValue β₂)
    (n : ℕ) :
    generateSpiralArmsAux { cfg with brightness := β₁ } u t n =
      generateSpiralArmsAux { cfg with brightness := β₂ } u t n := by
  induction n with
  | zero => rfl
  | succ k ih =>
    have hc : Spiral.starColor { cfg with brightness := β₁ } u k =
        Spiral.starColor { cfg with brightness := β₂ } u k := by
      rw [spiral_starColor_brightness, spiral_starColor_brightness, h]
    simp only [generateSpiralArmsAux, ih, hc, spiral_x_brightness,
      spiral_y_brightness, spiral_z_brightness, spiral_finalSize_brightness]

theorem addCentralBulgeAux_brightness (cfg : GalaxyConfig) (v : ℕ → ℕ → ℝ)
    (β₁ β₂ : Option ℝ) (h : brightnessValue β₁ = brightnessValue β₂) (n : ℕ)
    (p : GenResult) :
    addCentralBulgeAux { cfg with brightness := β₁ } v n p =
      addCentralBulgeAux { cfg with brightness := β₂ } v n p := by
  induction n with
  | zero => rfl
  | succ k ih =>
    have hc : Bulge.starColor { cfg with brightness := β₁ } v k =
        Bulge.starColor { cfg with brightness := β₂ } v k := by
      rw [bulge_starColor_brightness, bulge_starColor_brightness, h]
    simp only [addCentralBulgeAux, ih, hc, bulge_x_brightness,
      bulge_y_brightness, bulge_z_brightness, bulge_size_brightness]

theorem generateSpiralArmsAux_colors_scale (cfg : GalaxyConfig)
    (u : ℕ → ℕ → ℝ) (t : ℝ) (b : ℝ) (hb : b ≠ 0) (n : ℕ) :
    (generateSpiralArmsAux { cfg with brightness := some b } u t n).colors =
      ((generateSpiralArmsAux { cfg with brightness := some 1 } u t n).colors).map
        (fun e => b * e) := by
  have h1 : brightnessValue (some b) = b := by simp [brightnessValue, hb]
  have h2 : brightnessValue (some 1) = 1 := by simp [brightnessValue]
  induction n with
  | zero => rfl
  | succ k ih =>
    simp [generateSpiralArmsAux, ih, spiral_starColor_brightness, h1, h2,
      scaleColor]

end Galaxy

namespace Galaxy

/-- C10: a falsy `brightness` (`0` or `undefined`) falls back to the factor
`1.0` — the generated arrays coincide with those for `brightness = 1`, so a
zero brightness never blacks out the colors (bulge stars, for instance, keep
red channel 1); for any nonzero brightness `b` the returned colors are the
pre-brightness base colors scaled componentwise by `b`. -/
theorem brightness_fallback_behavior :
    (∀ (cfg : GalaxyConfig) (u : ℕ → ℕ → ℝ) (t : ℝ),
      generateSpiralArms { cfg with brightness := some 0 } u t =
        generateSpiralArms { cfg with brightness := some 1 } u t ∧
      generateSpiralArms { cfg with brightness := none } u t =
        generateSpiralArms { cfg with brightness := some 1 } u t) ∧
    (∀ (cfg : GalaxyConfig) (p c s : List ℝ) (N : ℕ) (v : ℕ → ℕ → ℝ),
      addCentralBulge { cfg with brightness := some 0 } p c s N v =
        addCentralBulge { cfg with brightness := some 1 } p c s N v ∧
      addCentralBulge { cfg with brightness := none } p c s N v =
        addCentralBulge { cfg with brightness := some 1 } p c s N v) ∧
    (∀ b : ℝ, b ≠ 0 → ∀ (cfg : GalaxyConfig) (u : ℕ → ℕ → ℝ) (t : ℝ),
      (generateSpiralArms { cfg with brightness := some b } u t).colors =
        ((generateSpiralArms { cfg with brightness := some 1 } u t).colors).map
          (fun e => b * e)) ∧
    (∀ b : ℝ, b ≠ 0 → ∀ (cfg : GalaxyConfig) (u : ℕ → ℕ → ℝ) (i : ℕ),
      Spiral.starColor { cfg with brightness := some b } u i =
        scaleColor b (Spiral.baseColor cfg u i)) ∧
    (∀ b : ℝ, b ≠ 0 → ∀ (cfg : GalaxyConfig) (v : ℕ → ℕ → ℝ) (i : ℕ),
      Bulge.starColor { cfg with brightness := some b } v i =
        scaleColor b (lerpColors (1, 170/255, 102/255) (1, 136/255, 68/255) (v i 4))) ∧
    (∀ (cfg : GalaxyConfig) (v : ℕ → ℕ → ℝ) (i : ℕ),
      (Bulge.starColor { cfg with brightness := some 0 } v i).1 = 1) := by
  have hz : brightnessValue (some 0) = brightnessValue (some 1) := by
    simp [brightnessValue]
  have hn : brightnessValue none = brightnessValue (some 1) := by
    simp [brightnessValue]
  refine ⟨fun cfg u t => ⟨?_, ?_⟩, fun cfg p c s N v => ⟨?_, ?_⟩, ?_, ?_, ?_, ?_⟩
  · exact generateSpiralArmsAux_brightness cfg u t (some 0) (some 1) hz _
  · exact generateSpiralArmsAux_brightness cfg u t none (some 1) hn _
  · exact addCentralBulgeAux_brightness cfg v (some 0) (some 1) hz _ _
  · exact addCentralBulgeAux_brightness cfg v none (some 1) hn _ _
  · intro b hb cfg u t
    exact generateSpiralArmsAux_colors_scale cfg u t b hb _
  · intro b hb cfg u i
    rw [spiral_starColor_brightness]
    simp [brightnessValue, hb]
  · intro b hb cfg v i
    rw [bulge_starColor_brightness]
    simp [brightnessValue, hb]
  · intro cfg v i
    rw [bulge_starColor_brightness]
    simp [brightnessValue, scaleColor, lerpColors]

/-- Witness for C10: default configuration, constant-half stream, brightness
0 versus 1 and the nonzero brightness 2. -/
theorem brightness_fallback_behavior_witness :
    generateSpiralArms { defaultConfig with brightness := some 0 } halfStream =
      generateSpiralArms { defaultConfig with brightness := some 1 } halfStream ∧
    (generateSpiralArms { defaultConfig with brightness := some 2 } halfStream).colors =
      ((generateSpiralArms { defaultConfig with brightness := some 1 } halfStream).colors).map
        (fun e => 2 * e) :=
  ⟨(brightness_fallback_behavior.1 defaultConfig halfStream 0.3).1,
   brightness_fallback_behavior.2.2.1 2 (by norm_num) defaultConfig halfStream 0.3⟩

/-! ## Evaluating the rotation pipeline on single stars -/

theorem rotationRadii_three (a b c : ℝ) :
    rotationRadii [a, b, c] = [Real.sqrt (a * a + b * b)] := by
  unfold rotationRadii
  simp [List.range_succ]

theorem angularVelocities_three (a b c s : ℝ) :
    angularVelocities [a, b, c] s =
      [calculateAngularVelocity (Real.sqrt (a * a + b * b)) s] := by
  unfold angularVelocities
  rw [rotationRadii_three]
  simp

theorem updateStarPositions_single (x₀ y₀ z₀ r ω t : ℝ) (hr : ¬ r < 0.1) :
    updateStarPositions ⟨[x₀, y₀, z₀], [r], [ω]⟩ t =
      ⟨[Real.cos (Complex.arg ⟨x₀, z₀⟩ + t * ω) * r, y₀,
        Real.sin (Complex.arg ⟨x₀, z₀⟩ + t * ω) * r], [r], [ω]⟩ := by
  unfold updateStarPositions
  simp [List.range_succ, hr]

theorem arg_mk_nonneg_real (a : ℝ) (ha : 0 ≤ a) : Complex.arg ⟨a, 0⟩ = 0 := by
  rw [show (⟨a, 0⟩ : ℂ) = ((a : ℝ) : ℂ) by simp [Complex.ext_iff]]
  exact Complex.arg_ofReal_of_nonneg ha

theorem arg_mk_cos_sin (θ : ℝ) (h : θ ∈ Set.Ioc (-Real.pi) Real.pi) :
    Complex.arg ⟨Real.cos θ, Real.sin θ⟩ = θ := by
  rw [Complex.mk_eq_add_mul_I, Complex.ofReal_cos, Complex.ofReal_sin]
  exact Complex.arg_cos_add_sin_mul_I h

end Galaxy

namespace Galaxy

/-- C1 (code bug): for a star at position `(x,y,z) = (0,2,4)` (reachable by
the spiral-arm generator: `finalRadius 4`, vertical offset 2),
`generateGalaxy` stores rotation radius `2 = sqrt(x²+y²)` — it reads
`positions[i*3+1]` (the y coordinate) as `z` — while the distance from the
vertical axis is `sqrt(x²+z²) = 4`; the stored angular velocity is
accordingly `calculateAngularVelocity` at `2`, which differs from its value
at the true radius `4`. -/
theorem rotationRadii_read_y_for_z :
    rotationRadii [0, 2, 4] = [2] ∧
    Real.sqrt ((0 : ℝ) ^ 2 + 4 ^ 2) = 4 ∧
    (2 : ℝ) ≠ 4 ∧
    angularVelocities [0, 2, 4] 1 = [calculateAngularVelocity 2 1] ∧
    calculateAngularVelocity 2 1 ≠ calculateAngularVelocity 4 1 := by
  have hsqrt4 : Real.sqrt ((0 : ℝ) * 0 + 2 * 2) = 2 := by
    rw [show (0 : ℝ) * 0 + 2 * 2 = 2 ^ 2 by norm_num, Real.sqrt_sq (by norm_num)]
  have hv2 : calculateAngularVelocity 2 1 = 2 / 10 := by
    unfold calculateAngularVelocity
    rw [if_pos (by norm_num)]
    norm_num
  have hv4 : calculateAngularVelocity 4 1 = 4 / 10 := by
    unfold calculateAngularVelocity
    rw [if_pos (by norm_num)]
    norm_num
  refine ⟨?_, ?_, by norm_num, ?_, ?_⟩
  · rw [rotationRadii_three, hsqrt4]
  · rw [show (0 : ℝ) ^ 2 + 4 ^ 2 = 4 ^ 2 by norm_num, Real.sqrt_sq (by norm_num)]
  · rw [angularVelocities_three, hsqrt4]
  · rw [hv2, hv4]
    norm_num

/-- C2 (code bug): a star at `(0.3, 0.4, 0)` (reachable by the spiral-arm
generator) has planar radius `sqrt(x²+z²) = 0.3`, but `generateGalaxy`
stores radius `0.5 = sqrt(x²+y²)` (above the 0.1 skip threshold), so the
very first `updateStarPositions` tick (here at elapsed time 0) snaps the
star to planar radius `0.5`: the rotation update does not preserve the
distance from the vertical axis. -/
theorem rotation_tick_changes_planar_radius :
    rotationRadii [0.3, 0.4, 0] = [0.5] ∧
    Real.sqrt ((0.3 : ℝ) ^ 2 + 0 ^ 2) = 0.3 ∧
    (updateStarPositions ⟨[0.3, 0.4, 0], rotationRadii [0.3, 0.4, 0],
        angularVelocities [0.3, 0.4, 0] (1/10)⟩ 0).positions = [0.5, 0.4, 0] ∧
    Real.sqrt ((0.5 : ℝ) ^ 2 + 0 ^ 2) = 0.5 ∧
    (0.3 : ℝ) ≠ 0.5 := by
  have hsqrt25 : Real.sqrt ((0.3 : ℝ) * 0.3 + 0.4 * 0.4) = 0.5 := by
    rw [show (0.3 : ℝ) * 0.3 + 0.4 * 0.4 = 0.5 ^ 2 by norm_num,
      Real.sqrt_sq (by norm_num)]
  have hrad : rotationRadii [0.3, 0.4, 0] = [0.5] := by
    rw [rotationRadii_three, hsqrt25]
  refine ⟨hrad, ?_, ?_, ?_, by norm_num⟩
  · rw [show (0.3 : ℝ) ^ 2 + 0 ^ 2 = 0.3 ^ 2 by norm_num,
      Real.sqrt_sq (by norm_num)]
  · rw [hrad, angularVelocities_three, hsqrt25,
      updateStarPositions_single 0.3 0.4 0 0.5 _ 0 (by norm_num),
      arg_mk_nonneg_real 0.3 (by norm_num)]
    norm_num
  · rw [show (0.5 : ℝ) ^ 2 + 0 ^ 2 = 0.5 ^ 2 by norm_num,
      Real.sqrt_sq (by norm_num)]

/-- C3 (code bug): `updateStarPositions` adds
`elapsedTime · angularVelocity` — the *total* elapsed time, not a frame
delta — to the star's current angle on every frame, so the result depends on
the whole tick schedule.  For a star at `(1,0,0)` with angular velocity 1
(`rotationSpeed = 10`), frames at elapsed times 1 and 2 leave it at angle
`0 + 1·1 + 1·2 = 3`, while the absolute-time reference angle at elapsed time
2 is `0 + 1·2 = 2`, and `cos 3 ≠ cos 2`. -/
theorem rotation_depends_on_tick_schedule :
    (runAnimationTicks ⟨[1, 0, 0], rotationRadii [1, 0, 0],
        angularVelocities [1, 0, 0] 10⟩ [1, 2]).positions =
      [Real.cos 3, 0, Real.sin 3] ∧
    specAbsoluteX (Complex.arg ⟨1, 0⟩) (calculateAngularVelocity 1 10) 1 2 =
      Real.cos 2 ∧
    Real.cos 3 ≠ Real.cos 2 := by
  have hsqrt1 : Real.sqrt ((1 : ℝ) * 1 + 0 * 0) = 1 := by
    rw [show (1 : ℝ) * 1 + 0 * 0 = 1 ^ 2 by norm_num, Real.sqrt_sq (by norm_num)]
  have hν : calculateAngularVelocity 1 10 = 1 := by
    unfold calculateAngularVelocity
    rw [if_pos (by norm_num)]
    norm_num
  have hπ3 : (3 : ℝ) ≤ Real.pi := le_of_lt Real.pi_gt_three
  have hcos : Real.cos 3 < Real.cos 2 :=
    Real.strictAntiOn_cos ⟨by norm_num, by linarith⟩ ⟨by norm_num, hπ3⟩
      (by norm_num)
  refine ⟨?_, ?_, ne_of_lt hcos⟩
  · rw [rotationRadii_three, angularVelocities_three, hsqrt1, hν]
    unfold runAnimationTicks
    rw [List.foldl_cons,
      updateStarPositions_single 1 0 0 1 1 1 (by norm_num),
      arg_mk_nonneg_real 1 (by norm_num)]
    norm_num
    rw [updateStarPositions_single (Real.cos 1) 0 (Real.sin 1) 1 1 2 (by norm_num),
      arg_mk_cos_sin 1 ⟨by nlinarith [Real.pi_gt_three], by linarith⟩]
    norm_num
  · unfold specAbsoluteX specAbsoluteAngle
    rw [arg_mk_nonneg_real 1 (by norm_num), hν]
    norm_num

/-! ## Rendering-optimizer helpers -/

theorem getLODLevel_eq (d : ℝ) :
    getLODLevel d = if d < 50 then 0 else if d < 100 then 1 else
      if d < 200 then 2 else if d < 400 then 3 else 4 := by
  simp only [getLODLevel, lodDistances, getLODLevelAux]
  split_ifs <;> norm_num

theorem classifyStar_cutoff (proj view : Matrix (Fin 4) (Fin 4) ℝ)
    (camPos p : ℝ × ℝ × ℝ)
    (h : distanceTo p camPos > lodDistances.getLastD 0 * 2) :
    classifyStar proj view camPos p = none := by
  simp only [classifyStar]
  rw [if_pos h]

theorem classifyStar_not_contained (proj view : Matrix (Fin 4) (Fin 4) ℝ)
    (camPos p : ℝ × ℝ × ℝ) (h : ¬ frustumContainsPoint (proj * view) p) :
    classifyStar proj view camPos p = none := by
  simp only [classifyStar]
  split_ifs with h1
  · rfl
  · rfl

theorem classifyStar_kept (proj view : Matrix (Fin 4) (Fin 4) ℝ)
    (camPos p : ℝ × ℝ × ℝ)
    (h1 : ¬ distanceTo p camPos > lodDistances.getLastD 0 * 2)
    (h2 : frustumContainsPoint (proj * view) p) :
    classifyStar proj view camPos p =
      some (getLODLevel (distanceTo p camPos)) := by
  simp only [classifyStar]
  rw [if_neg h1, if_neg (not_not_intro h2)]

theorem distanceTo_self (p : ℝ × ℝ × ℝ) : distanceTo p p = 0 := by
  unfold distanceTo
  simp

/-- The eye point of a perspective camera with positive near plane lies
behind the near plane, so the camera position itself fails the three.js
frustum containment test (camera untransformed, `matrixWorldInverse = 1`):
the near-plane distance evaluates to `−near < 0`. -/
theorem camera_position_not_contained (fov aspect near far : ℝ)
    (hn : 0 < near) (hf : near < far) :
    ¬ frustumContainsPoint (perspectiveProjection fov aspect near far * 1)
      (0, 0, 0) := by
  intro h
  have h6 := h.2.2.2.2.2
  rw [mul_one] at h6
  have e30 : perspectiveProjection fov aspect near far 3 0 = 0 := by
    simp [perspectiveProjection, makePerspective, Matrix.vecHead, Matrix.vecTail]
  have e20 : perspectiveProjection fov aspect near far 2 0 = 0 := by
    simp [perspectiveProjection, makePerspective, Matrix.vecHead, Matrix.vecTail]
  have e31 : perspectiveProjection fov aspect near far 3 1 = 0 := by
    simp [perspectiveProjection, makePerspective, Matrix.vecHead, Matrix.vecTail]
  have e21 : perspectiveProjection fov aspect near far 2 1 = 0 := by
    simp [perspectiveProjection, makePerspective, Matrix.vecHead, Matrix.vecTail]
  have e32 : perspectiveProjection fov aspect near far 3 2 = -1 := by
    simp [perspectiveProjection, makePerspective, Matrix.vecHead, Matrix.vecTail]
  have e22 : perspectiveProjection fov aspect near far 2 2 =
      -(far + near) / (far - near) := by
    simp [perspectiveProjection, makePerspective, Matrix.vecHead, Matrix.vecTail]
  have e33 : perspectiveProjection fov aspect near far 3 3 = 0 := by
    simp [perspectiveProjection, makePerspective, Matrix.vecHead, Matrix.vecTail]
  have e23 : perspectiveProjection fov aspect near far 2 3 =
      -2 * far * near / (far - near) := by
    simp [perspectiveProjection, makePerspective, Matrix.vecHead, Matrix.vecTail]
  rw [e30, e20, e31, e21, e32, e22, e33, e23] at h6
  unfold planeDistance at h6
  have hfn : (0 : ℝ) < far - near := by linarith
  have hfpos : (0 : ℝ) < far := lt_trans hn hf
  have hc : (-1 + -(far + near) / (far - near)) = -(2 * far) / (far - near) := by
    field_simp
    ring
  have hcneg : -(2 * far) / (far - near) < 0 :=
    div_neg_of_neg_of_pos (by linarith) hfn
  have habs : Real.sqrt ((0 + 0 : ℝ) ^ 2 + (0 + 0) ^ 2 +
      (-1 + -(far + near) / (far - near)) ^ 2) = 2 * far / (far - near) := by
    rw [show ((0 + 0 : ℝ) ^ 2 + (0 + 0) ^ 2 +
        (-1 + -(far + near) / (far - near)) ^ 2) =
        (-1 + -(far + near) / (far - near)) ^ 2 by ring,
      Real.sqrt_sq_eq_abs, hc, abs_of_neg hcneg]
    ring
  rw [habs] at h6
  have hd : (0 + 0 : ℝ) * 0 + (0 + 0) * 0 +
      (-1 + -(far + near) / (far - near)) * 0 +
      (0 + -2 * far * near / (far - near)) =
      -2 * far * near / (far - near) := by ring
  rw [hd] at h6
  have hnum : (-2 : ℝ) * far * near / (far - near) < 0 :=
    div_neg_of_neg_of_pos (by nlinarith) hfn
  have hden : (0 : ℝ) < 2 * far / (far - near) := by positivity
  have : (-2 : ℝ) * far * near / (far - near) / (2 * far / (far - near)) < 0 :=
    div_neg_of_neg_of_pos hnum hden
  linarith

theorem classifyStar_at_camera (fov aspect near far : ℝ) (hn : 0 < near)
    (hf : near < far) :
    classifyStar (perspectiveProjection fov aspect near far) 1 (0, 0, 0)
      (0, 0, 0) = none :=
  classifyStar_not_contained _ _ _ _
    (camera_position_not_contained fov aspect near far hn hf)

end Galaxy

namespace Galaxy

/-- C6 amended: the classifier discards every star farther than
`2 × 400 = 800` from the camera and every star failing the frustum test, and
sends the rest to the first LOD bucket whose threshold (50/100/200/400)
exceeds the distance, with level 4 beyond the last threshold.  However, a
star placed exactly at the camera position — whose distance 0 would give LOD
level 0 — is *not* frustum-visible for any perspective camera with positive
near plane: it lies behind the near plane and is excluded from every
bucket. -/
theorem optimizeStarRendering_classification :
    lodDistances.getLastD 0 * 2 = 800 ∧
    (∀ (proj view : Matrix (Fin 4) (Fin 4) ℝ) (camPos p : ℝ × ℝ × ℝ),
      distanceTo p camPos > 800 → classifyStar proj view camPos p = none) ∧
    (∀ (proj view : Matrix (Fin 4) (Fin 4) ℝ) (camPos p : ℝ × ℝ × ℝ),
      ¬ frustumContainsPoint (proj * view) p →
      classifyStar proj view camPos p = none) ∧
    (∀ (proj view : Matrix (Fin 4) (Fin 4) ℝ) (camPos p : ℝ × ℝ × ℝ),
      distanceTo p camPos ≤ 800 → frustumContainsPoint (proj * view) p →
      classifyStar proj view camPos p =
        some (getLODLevel (distanceTo p camPos))) ∧
    (∀ d : ℝ, (d < 50 → getLODLevel d = 0) ∧
      (50 ≤ d → d < 100 → getLODLevel d = 1) ∧
      (100 ≤ d → d < 200 → getLODLevel d = 2) ∧
      (200 ≤ d → d < 400 → getLODLevel d = 3) ∧
      (400 ≤ d → getLODLevel d = 4)) ∧
    (∀ fov aspect near far : ℝ, 0 < near → near < far →
      getLODLevel (distanceTo (0, 0, 0) (0, 0, 0)) = 0 ∧
      classifyStar (perspectiveProjection fov aspect near far) 1 (0, 0, 0)
        (0, 0, 0) = none) := by
  have h800 : lodDistances.getLastD 0 * 2 = (800 : ℝ) := by
    norm_num [lodDistances]
  refine ⟨h800, ?_, classifyStar_not_contained, ?_, ?_, ?_⟩
  · intro proj view camPos p h
    exact classifyStar_cutoff proj view camPos p (by rw [h800]; exact h)
  · intro proj view camPos p h1 h2
    exact classifyStar_kept proj view camPos p (by rw [h800]; linarith) h2
  · intro d
    rw [getLODLevel_eq]
    refine ⟨fun h => by rw [if_pos h], fun h1 h2 => ?_, fun h1 h2 => ?_,
      fun h1 h2 => ?_, fun h => ?_⟩
    · rw [if_neg (by linarith), if_pos h2]
    · rw [if_neg (by linarith), if_neg (by linarith), if_pos h2]
    · rw [if_neg (by linarith), if_neg (by linarith), if_neg (by linarith),
        if_pos h2]
    · rw [if_neg (by linarith), if_neg (by linarith), if_neg (by linarith),
        if_neg (by linarith)]
  · intro fov aspect near far hn hf
    refine ⟨?_, classifyStar_at_camera fov aspect near far hn hf⟩
    rw [distanceTo_self, getLODLevel_eq, if_pos (by norm_num)]

/-- Witness for C6 (amended): the repository camera
(`fov 75, near 0.1, far 1000`), a star 900 units away (discarded) and the
distance-30 bucket. -/
theorem optimizeStarRendering_classification_witness :
    classifyStar 1 1 (0, 0, 0) ((900 : ℝ), 0, 0) = none ∧
    getLODLevel 30 = 0 ∧
    classifyStar (perspectiveProjection 75 1 (1/10) 1000) 1 (0, 0, 0)
      (0, 0, 0) = none :=
  ⟨optimizeStarRendering_classification.2.1 1 1 (0, 0, 0) ((900 : ℝ), 0, 0)
      (by unfold distanceTo
          rw [show ((900 : ℝ) - 0) ^ 2 + (0 - 0) ^ 2 + (0 - 0) ^ 2 = 900 ^ 2
              by norm_num,
            Real.sqrt_sq (by norm_num)]
          norm_num),
   (optimizeStarRendering_classification.2.2.2.2.1 30).1 (by norm_num),
   (optimizeStarRendering_classification.2.2.2.2.2 75 1 (1/10) 1000
      (by norm_num) (by norm_num)).2⟩

/-- C6 counterexample: for the repository camera (`near = 0.1 > 0`,
untransformed, at the origin) a star placed exactly at the camera position
fails the frustum containment test and is excluded from every bucket,
contrary to the claim that it is frustum-visible and lands in LOD level 0. -/
theorem optimizeStarRendering_camera_star_excluded :
    ¬ frustumContainsPoint (perspectiveProjection 75 1 (1/10) 1000 * 1)
        (0, 0, 0) ∧
    classifyStar (perspectiveProjection 75 1 (1/10) 1000) 1 (0, 0, 0)
      (0, 0, 0) = none :=
  ⟨camera_position_not_contained 75 1 (1/10) 1000 (by norm_num) (by norm_num),
   classifyStar_at_camera 75 1 (1/10) 1000 (by norm_num) (by norm_num)⟩

/-! ## NaN-propagation helpers -/

theorem jadd_none_left (x : Option ℝ) : JS.jadd none x = none := by
  cases x <;> rfl

theorem jmul_none_left (x : Option ℝ) : JS.jmul none x = none := by
  cases x <;> rfl

theorem jadd_some (a b : ℝ) : JS.jadd (some a) (some b) = some (a + b) := rfl

theorem jmul_some (a b : ℝ) : JS.jmul (some a) (some b) = some (a * b) := rfl

theorem jdiv_some (a b : ℝ) (hb : b ≠ 0) :
    JS.jdiv (some a) (some b) = some (a / b) := by
  simp [JS.jdiv, hb]

theorem jdiv_zero_divisor (a : ℝ) : JS.jdiv (some a) (some 0) = none := by
  simp [JS.jdiv]

theorem jcos_none : JS.jcos none = none := rfl

theorem jsin_none : JS.jsin none = none := rfl

end Galaxy

namespace Galaxy

/-- C5 amended: `generateSpiralArms` does *not* guard `armCount ≤ 0` — the
angle-offset division divides by `armCount` itself.  The call still returns
arrays of the correct lengths for any `armCount` (nothing throws), but with
`armCount = 0` the offset is `0/0` and every star's `x` and `z` entries are
non-finite (NaN), while `y` stays finite; for any nonzero `armCount`
(negative included) all position entries are the finite values of the
real-valued embedding. -/
theorem generateSpiralArms_armCount_guard (cfg : GalaxyConfig)
    (u : ℕ → ℕ → ℝ) (t : ℝ) (i : ℕ) :
    (cfg.armCount = 0 →
      JS.armAngleOffset cfg u i = none ∧
      JS.x cfg u t i = none ∧
      JS.z cfg u t i = none ∧
      JS.y cfg u i = some (Spiral.y cfg u i)) ∧
    (cfg.armCount ≠ 0 →
      JS.x cfg u t i = some (Spiral.x cfg u t i) ∧
      JS.z cfg u t i = some (Spiral.z cfg u t i)) ∧
    (generateSpiralArms cfg u t).positions.length = 3 * cfg.starCount ∧
    (generateSpiralArms cfg u t).sizes.length = cfg.starCount := by
  obtain ⟨hp, -, hs⟩ := generateSpiralArmsAux_lengths cfg u t cfg.starCount
  refine ⟨?_, ?_, hp, hs⟩
  · intro h0
    have hcast : (cfg.armCount : ℝ) = 0 := by rw [h0, Int.cast_zero]
    have hoff : JS.armAngleOffset cfg u i = none := by
      unfold JS.armAngleOffset
      rw [hcast]
      exact jdiv_zero_divisor _
    have hfin : JS.finalAngle cfg u t i = none := by
      unfold JS.finalAngle JS.spiralAngle
      rw [hoff, jadd_none_left, jadd_none_left]
    refine ⟨hoff, ?_, ?_, rfl⟩
    · unfold JS.x
      rw [hfin, jcos_none, jmul_none_left]
    · unfold JS.z
      rw [hfin, jsin_none, jmul_none_left]
  · intro h0
    have hcast : (cfg.armCount : ℝ) ≠ 0 := Int.cast_ne_zero.mpr h0
    have hoff : JS.armAngleOffset cfg u i =
        some (Spiral.armAngleOffset cfg u i) := by
      unfold JS.armAngleOffset Spiral.armAngleOffset
      exact jdiv_some _ _ hcast
    have hvar : JS.angleVariation cfg u i =
        some (Spiral.angleVariation cfg u i) := by
      unfold JS.angleVariation Spiral.angleVariation
      rw [jdiv_some _ _ hcast, jmul_some]
    have hfin : JS.finalAngle cfg u t i =
        some (Spiral.finalAngle cfg u t i) := by
      unfold JS.finalAngle JS.spiralAngle Spiral.finalAngle Spiral.spiralAngle
      rw [hoff, hvar, jadd_some, jadd_some]
    constructor
    · unfold JS.x Spiral.x
      rw [hfin]
      exact jmul_some _ _
    · unfold JS.z Spiral.z
      rw [hfin]
      exact jmul_some _ _

/-- Witness for C5 (amended): `armCount = 0` makes the first star's `x`
non-finite; `armCount = 1` keeps it finite. -/
theorem generateSpiralArms_armCount_guard_witness :
    JS.z zeroArmConfig halfStream 0.3 0 = none ∧
    JS.x smallRadiusConfig halfStream 0.3 0 =
      some (Spiral.x smallRadiusConfig halfStream 0.3 0) :=
  ⟨((generateSpiralArms_armCount_guard zeroArmConfig halfStream 0.3 0).1
      (by norm_num [zeroArmConfig])).2.2.1,
   ((generateSpiralArms_armCount_guard smallRadiusConfig halfStream 0.3 0).2.1
      (by norm_num [smallRadiusConfig])).1⟩

/-- C5 counterexample: with `armCount = 0` (and any star count) the
arm-angle-offset division is `0/0` — the divisor is `armCount` itself, not an
effective minimum of 1 — and the generated star's `x` and `z` position
entries are non-finite (NaN), contrary to the claimed guard and finiteness. -/
theorem generateSpiralArms_zeroArm_nan :
    zeroArmConfig.armCount ≤ 0 ∧
    JS.armAngleOffset zeroArmConfig halfStream 0 = none ∧
    JS.x zeroArmConfig halfStream 0.3 0 = none := by
  have hcast : (zeroArmConfig.armCount : ℝ) = 0 := by norm_num [zeroArmConfig]
  have hoff : JS.armAngleOffset zeroArmConfig halfStream 0 = none := by
    unfold JS.armAngleOffset
    rw [hcast]
    exact jdiv_zero_divisor _
  refine ⟨by norm_num [zeroArmConfig], hoff, ?_⟩
  have hfin : JS.finalAngle zeroArmConfig halfStream 0.3 0 = none := by
    unfold JS.finalAngle JS.spiralAngle
    rw [hoff, jadd_none_left, jadd_none_left]
  unfold JS.x
  rw [hfin, jcos_none, jmul_none_left]

end Galaxy

namespace Galaxy

/-- C4: `calculateAngularVelocity` equals the piecewise reference curve —
`rotationSpeed·(radius/10)` below 10 (hence exactly 0 at radius 0),
`rotationSpeed` on `[10,30)`, and `rotationSpeed·(30/radius)^0.3` from 30 on;
for positive speed it is strictly decreasing and never zero on `radius ≥ 30`,
and for fixed radius it is linear in the speed. -/
theorem calculateAngularVelocity_spec :
    (∀ r s : ℝ, r < 10 → calculateAngularVelocity r s = s * (r / 10)) ∧
    (∀ s : ℝ, calculateAngularVelocity 0 s = 0) ∧
    (∀ r s : ℝ, 10 ≤ r → r < 30 → calculateAngularVelocity r s = s) ∧
    (∀ r s : ℝ, 30 ≤ r → calculateAngularVelocity r s = s * (30 / r) ^ (0.3 : ℝ)) ∧
    (∀ r₁ r₂ s : ℝ, 0 < s → 30 ≤ r₁ → r₁ < r₂ →
      calculateAngularVelocity r₂ s < calculateAngularVelocity r₁ s) ∧
    (∀ r s : ℝ, 0 < s → 30 ≤ r → calculateAngularVelocity r s ≠ 0) ∧
    (∀ r s c : ℝ, calculateAngularVelocity r (c * s) = c * calculateAngularVelocity r s) := by
  have hval : ∀ r s : ℝ, 30 ≤ r →
      calculateAngularVelocity r s = s * (30 / r) ^ (0.3 : ℝ) := by
    intro r s hr
    unfold calculateAngularVelocity
    rw [if_neg (by linarith), if_neg (by linarith)]
  refine ⟨?_, ?_, ?_, hval, ?_, ?_, ?_⟩
  · intro r s hr
    unfold calculateAngularVelocity
    rw [if_pos hr]
  · intro s
    unfold calculateAngularVelocity
    rw [if_pos (by norm_num)]
    ring
  · intro r s h10 h30
    unfold calculateAngularVelocity
    rw [if_neg (by linarith), if_pos h30]
  · intro r₁ r₂ s hs h30 hlt
    rw [hval r₁ s h30, hval r₂ s (by linarith)]
    have hr₁ : (0:ℝ) < r₁ := by linarith
    have hr₂ : (0:ℝ) < r₂ := by linarith
    have hbase : (30:ℝ) / r₂ < 30 / r₁ := by
      apply div_lt_div_of_pos_left (by norm_num) hr₁ hlt
    have hpow : ((30:ℝ) / r₂) ^ (0.3 : ℝ) < ((30:ℝ) / r₁) ^ (0.3 : ℝ) :=
      Real.rpow_lt_rpow (by positivity) hbase (by norm_num)
    exact mul_lt_mul_of_pos_left hpow hs
  · intro r s hs h30
    rw [hval r s h30]
    have hr : (0:ℝ) < r := by linarith
    have : (0:ℝ) < (30 / r) ^ (0.3 : ℝ) :=
      Real.rpow_pos_of_pos (by positivity) _
    positivity
  · intro r s c
    unfold calculateAngularVelocity
    split_ifs <;> ring

/-- Witness for C4 at concrete inputs: radius 40 vs 30 at speed 2, radius 0
at speed 5, and doubling the speed at radius 17. -/
theorem calculateAngularVelocity_spec_witness :
    calculateAngularVelocity 40 2 < calculateAngularVelocity 30 2 ∧
    calculateAngularVelocity 0 5 = 0 ∧
    calculateAngularVelocity 17 3 = 3 ∧
    calculateAngularVelocity 17 (2 * 3) = 2 * calculateAngularVelocity 17 3 :=
  ⟨calculateAngularVelocity_spec.2.2.2.2.1 30 40 2 (by norm_num) (by norm_num) (by norm_num),
   calculateAngularVelocity_spec.2.1 5,
   calculateAngularVelocity_spec.2.2.1 17 3 (by norm_num) (by norm_num),
   calculateAngularVelocity_spec.2.2.2.2.2.2 17 3 2⟩

end Galaxy
